import Mathlib

/-!
Shallow embedding of `src-tauri/src/lib.rs` of the `azr` repository.

The source is a minimal Tauri desktop entry point:

  pub fn run() {
      tauri::Builder::default()
          .plugin(tauri_plugin_shell::init())
          .setup(|app| {
              if let Some(window) = app.get_webview_window("main") {
                  let _ = window.show();
                  let _ = window.set_focus();
              }
              Ok(())
          })
          .run(tauri::generate_context!())
          .expect("error while running tauri application");
  }

We model the framework-owned parts (window registry, the fallible results
of `show` / `set_focus`, the possible startup failure of the framework's
`run`) as an explicit environment, and the code's observable behaviour as
a trace of effects plus a result value.
-/

namespace Azr

/-- A webview window handle, identified by its registration label. -/
structure WebviewWindow where
  label : String
deriving DecidableEq

/-- The application handle passed to the setup hook: the registry of
webview windows that exist at setup time. -/
structure App where
  windows : List WebviewWindow
deriving DecidableEq

/-- `app.get_webview_window(label)`: look up a webview window by its
registration label; `none` when no such window exists. -/
def App.get_webview_window (app : App) (l : String) : Option WebviewWindow :=
  app.windows.find? (fun w => w.label == l)

/-- An observable side effect issued against the framework: a window
`show`, a window `set_focus`, or an operation of the shell plugin. -/
inductive Effect where
  | winShow (w : WebviewWindow)
  | winSetFocus (w : WebviewWindow)
  | shellOp (cmd : String)
deriving DecidableEq

/-- The window label an effect acts on (`none` for shell operations). -/
def Effect.target : Effect → Option String
  | Effect.winShow w => some w.label
  | Effect.winSetFocus w => some w.label
  | Effect.shellOp _ => none

/-- Whether an effect is an operation of the shell plugin. -/
def Effect.isShellOp : Effect → Bool
  | Effect.shellOp _ => true
  | _ => false

/-- Environment chosen by the framework: the success (`true` = `Ok`) of
each fallible window operation. The code discards these results. -/
structure OpEnv where
  showResult : WebviewWindow → Bool
  setFocusResult : WebviewWindow → Bool

/-- How an invocation of the setup hook can end: returning `Ok(())`,
returning an error, or panicking. -/
inductive SetupResult where
  | ok
  | error (e : String)
  | panicked (msg : String)
deriving DecidableEq

/-- Observable outcome of one invocation of the setup hook: the ordered
trace of effects it issued, and how it returned. -/
structure SetupOutcome where
  trace : List Effect
  result : SetupResult
deriving DecidableEq

/-- The setup closure of `run` in `src-tauri/src/lib.rs`: look up the
webview window labelled "main"; if present, call `window.show()` and then
`window.set_focus()`, discarding both results (`let _ = ...`); in every
case return `Ok(())`. -/
def setupHook (env : OpEnv) (app : App) : SetupOutcome :=
  match app.get_webview_window "main" with
  | some window =>
      let _ := env.showResult window
      let _ := env.setFocusResult window
      { trace := [Effect.winShow window, Effect.winSetFocus window]
        result := SetupResult.ok }
  | none => { trace := [], result := SetupResult.ok }

/-- The per-window state the two window operations act on. -/
structure WindowState where
  visible : Bool
  focused : Bool
deriving DecidableEq

/-- Semantics of one effect on the per-label window states: a successful
`show` makes its target visible, a successful `set_focus` gives its
target focus; a failed operation and a shell operation change nothing. -/
def applyEffect (env : OpEnv) (σ : String → WindowState) : Effect → String → WindowState
  | Effect.winShow w => fun l =>
      if env.showResult w && (l == w.label) then
        { σ l with visible := true }
      else σ l
  | Effect.winSetFocus w => fun l =>
      if env.setFocusResult w && (l == w.label) then
        { σ l with focused := true }
      else σ l
  | Effect.shellOp _ => σ

/-- Apply a trace of effects in order. -/
def applyTrace (env : OpEnv) (σ : String → WindowState) : List Effect → String → WindowState
  | [] => σ
  | e :: es => applyTrace env (applyEffect env σ e) es

/-- A plugin registrable on the builder. -/
inductive Plugin where
  | shell
deriving DecidableEq

/-- `tauri_plugin_shell::init()`: constructs the shell plugin. -/
def tauri_plugin_shell_init : Plugin := Plugin.shell

/-- A configuration step performed on the builder. -/
inductive BuilderStep where
  | pluginReg (p : Plugin)
  | setupReg
deriving DecidableEq

/-- The application builder: the ordered list of configuration steps
performed on it, and the registered setup hooks. -/
structure Builder where
  steps : List BuilderStep
  setupHooks : List (OpEnv → App → SetupOutcome)

/-- `tauri::Builder::default()`: a builder with no configuration. -/
def Builder.default : Builder := { steps := [], setupHooks := [] }

/-- `.plugin(p)`: register a plugin on the builder. -/
def Builder.plugin (b : Builder) (p : Plugin) : Builder :=
  { b with steps := b.steps ++ [BuilderStep.pluginReg p] }

/-- `.setup(h)`: register a setup hook on the builder. -/
def Builder.setup (b : Builder) (h : OpEnv → App → SetupOutcome) : Builder :=
  { steps := b.steps ++ [BuilderStep.setupReg]
    setupHooks := b.setupHooks ++ [h] }

/-- The context produced by `tauri::generate_context!()`. -/
structure Context where
deriving DecidableEq

/-- `tauri::generate_context!()`. -/
def generate_context : Context := {}

/-- The framework-owned state `run` executes against: the outcomes of
window operations, the application state handed to setup hooks, and the
framework's own startup failure, if any. -/
structure FrameworkEnv where
  ops : OpEnv
  app : App
  startupErr : Option String

/-- `Builder.run(context)`: the framework either fails to start with its
own error, or starts, invokes each registered setup hook once in order,
and runs the event loop; a setup hook returning an error makes `run`
return an error. -/
def Builder.run (b : Builder) (_ctx : Context) (fw : FrameworkEnv) :
    Except String Unit :=
  match fw.startupErr with
  | some e => Except.error e
  | none =>
      let outcomes := b.setupHooks.map (fun h => h fw.ops fw.app)
      if outcomes.all (fun o => o.result == SetupResult.ok) then
        Except.ok ()
      else
        Except.error "setup failed"

/-- What becomes of the process after `run` returns to `expect`. -/
inductive ProcessOutcome where
  | completed
  | aborted (msg : String)
deriving DecidableEq

/-- Rust's `Result::expect(msg)`: on `Ok` proceed; on `Err` abort the
process with the fixed diagnostic message `msg`. -/
def expectOr (r : Except String Unit) (msg : String) : ProcessOutcome :=
  match r with
  | Except.ok _ => ProcessOutcome.completed
  | Except.error _ => ProcessOutcome.aborted msg

/-- The builder value constructed by `run` in `lib.rs`:
`Builder::default().plugin(tauri_plugin_shell::init()).setup(<closure>)`. -/
def appBuilder : Builder :=
  ((Builder.default).plugin tauri_plugin_shell_init).setup setupHook

/-- The `run` entry point of `lib.rs`: build the configured builder, run
it with the generated context, and `expect` the result with the fixed
message. -/
def run (fw : FrameworkEnv) : ProcessOutcome :=
  expectOr (appBuilder.run generate_context fw)
    "error while running tauri application"

/- Concrete instances used by witnesses. -/

/-- The window labelled "main". -/
def wMain : WebviewWindow := { label := "main" }

/-- An application state whose only window is "main". -/
def appMain : App := { windows := [wMain] }

/-- An application state with no "main" window. -/
def appOther : App := { windows := [{ label := "other" }] }

/-- An environment in which every window operation succeeds. -/
def envAll : OpEnv :=
  { showResult := fun _ => true, setFocusResult := fun _ => true }

/-- An environment in which every window operation fails. -/
def envFail : OpEnv :=
  { showResult := fun _ => false, setFocusResult := fun _ => false }

/-- The registered window label of a found window matches the lookup key. -/
theorem label_of_found (app : App) (l : String) (w : WebviewWindow)
    (h : app.get_webview_window l = some w) : w.label = l := by
  have h2 : app.windows.find? (fun x => x.label == l) = some w := h
  have := List.find?_some h2
  simpa using this

/-- C1: if a webview window registered under "main" exists at setup time,
the setup hook issues `show` on it exactly once and `set_focus` on it
exactly once. -/
theorem setup_shows_and_focuses_main_once (env : OpEnv) (app : App)
    (w : WebviewWindow) (h : app.get_webview_window "main" = some w) :
    (setupHook env app).trace.count (Effect.winShow w) = 1 ∧
    (setupHook env app).trace.count (Effect.winSetFocus w) = 1 := by
  simp [setupHook, h, List.count_cons]

/-- Witness for C1 at the concrete state whose only window is "main". -/
theorem setup_shows_and_focuses_main_once_witness :
    appMain.get_webview_window "main" = some wMain ∧
    (setupHook envAll appMain).trace.count (Effect.winShow wMain) = 1 ∧
    (setupHook envAll appMain).trace.count (Effect.winSetFocus wMain) = 1 :=
  ⟨by rfl, setup_shows_and_focuses_main_once envAll appMain wMain (by rfl)⟩

/-- C2: if no window registered under "main" exists at setup time, the
setup hook issues no window operation and returns `Ok`. -/
theorem setup_no_main_is_noop (env : OpEnv) (app : App)
    (h : app.get_webview_window "main" = none) :
    (setupHook env app).trace = [] ∧
    (setupHook env app).result = SetupResult.ok := by
  simp [setupHook, h]

/-- Witness for C2 at a concrete state with no "main" window. -/
theorem setup_no_main_is_noop_witness :
    appOther.get_webview_window "main" = none ∧
    ((setupHook envAll appOther).trace = [] ∧
     (setupHook envAll appOther).result = SetupResult.ok) :=
  ⟨by rfl, setup_no_main_is_noop envAll appOther (by rfl)⟩

/-- C3: if the framework's `run` fails to start the application, the
process aborts with the fixed message "error while running tauri
application". -/
theorem run_aborts_on_startup_failure (fw : FrameworkEnv) (e : String)
    (h : fw.startupErr = some e) :
    run fw = ProcessOutcome.aborted "error while running tauri application" := by
  simp [run, Builder.run, expectOr, h]

/-- Witness for C3 at a concrete startup failure. -/
theorem run_aborts_on_startup_failure_witness :
    ({ ops := envAll, app := appMain, startupErr := some "boom" } :
        FrameworkEnv).startupErr = some "boom" ∧
    run { ops := envAll, app := appMain, startupErr := some "boom" } =
      ProcessOutcome.aborted "error while running tauri application" :=
  ⟨rfl, run_aborts_on_startup_failure
    { ops := envAll, app := appMain, startupErr := some "boom" } "boom" rfl⟩

/-- C4: in the setup hook's trace, every occurrence of `set_focus` on a
window is preceded by an occurrence of `show` on that window. -/
theorem set_focus_preceded_by_show (env : OpEnv) (app : App)
    (w : WebviewWindow) (pre post : List Effect)
    (h : (setupHook env app).trace = pre ++ Effect.winSetFocus w :: post) :
    Effect.winShow w ∈ pre := by
  unfold setupHook at h
  cases hget : app.get_webview_window "main" with
  | none =>
      rw [hget] at h
      simp at h
  | some w' =>
      rw [hget] at h
      simp only [] at h
      cases pre with
      | nil => simp at h
      | cons a pre' =>
          cases pre' with
          | nil =>
              simp at h
              obtain ⟨ha, hw2, -⟩ := h
              subst hw2
              simp [ha]
          | cons b pre'' => simp at h

/-- Witness for C4: at the concrete state whose only window is "main",
the single `set_focus` in the trace is preceded by the `show`. -/
theorem set_focus_preceded_by_show_witness :
    ((setupHook envAll appMain).trace =
      [Effect.winShow wMain] ++ Effect.winSetFocus wMain :: []) ∧
    Effect.winShow wMain ∈ [Effect.winShow wMain] :=
  ⟨by rfl, set_focus_preceded_by_show envAll appMain wMain
    [Effect.winShow wMain] [] (by rfl)⟩

/-- C5: the `run` entry point configures the builder by exactly
registering the shell plugin and then the setup hook, in that order, and
then runs the builder with the generated context, aborting on error with
the fixed message. -/
theorem run_builder_configuration :
    appBuilder.steps = [BuilderStep.pluginReg Plugin.shell, BuilderStep.setupReg] ∧
    appBuilder.setupHooks = [setupHook] ∧
    ∀ fw : FrameworkEnv,
      run fw = expectOr (appBuilder.run generate_context fw)
        "error while running tauri application" :=
  ⟨rfl, rfl, fun _ => rfl⟩

/-- C6: the shell plugin is registered exactly once on the builder, and
no invocation of the setup hook ever issues a shell operation. -/
theorem shell_plugin_once_and_unused :
    appBuilder.steps.count (BuilderStep.pluginReg Plugin.shell) = 1 ∧
    ∀ (env : OpEnv) (app : App),
      (setupHook env app).trace.countP (fun e => e.isShellOp) = 0 := by
  refine ⟨by rfl, fun env app => ?_⟩
  unfold setupHook
  cases hget : app.get_webview_window "main" <;>
    simp [Effect.isShellOp, List.countP_cons]

/-- C7: the results of `show` and `set_focus` are discarded: whatever
outcome the framework gives them, the setup hook returns `Ok`, still
issues `set_focus`, and its whole outcome is independent of those
results. -/
theorem setup_discards_op_results (env env' : OpEnv) (app : App)
    (w : WebviewWindow) (h : app.get_webview_window "main" = some w) :
    (setupHook env app).result = SetupResult.ok ∧
    Effect.winSetFocus w ∈ (setupHook env app).trace ∧
    setupHook env app = setupHook env' app := by
  simp [setupHook, h]

/-- Witness for C7 in the environment where `show` (and `set_focus`)
fail: `set_focus` is still issued and the hook still returns `Ok`. -/
theorem setup_discards_op_results_witness :
    envFail.showResult wMain = false ∧
    appMain.get_webview_window "main" = some wMain ∧
    ((setupHook envFail appMain).result = SetupResult.ok ∧
     Effect.winSetFocus wMain ∈ (setupHook envFail appMain).trace ∧
     setupHook envFail appMain = setupHook envAll appMain) :=
  ⟨rfl, by rfl, setup_discards_op_results envFail envAll appMain wMain (by rfl)⟩

/-- C8: the setup hook is total: for every application state and every
outcome of the window operations it returns `Ok` — it neither errors nor
panics. -/
theorem setup_total_returns_ok (env : OpEnv) (app : App) :
    (setupHook env app).result = SetupResult.ok := by
  unfold setupHook
  cases app.get_webview_window "main" <;> rfl

/-- C9: the setup hook operates only on the window registered under
"main": every effect it issues targets "main", and the state of every
window registered under another label is unchanged by its trace. -/
theorem setup_touches_only_main (env : OpEnv) (app : App) (l : String)
    (σ : String → WindowState) (h : l ≠ "main") :
    (∀ e ∈ (setupHook env app).trace, e.target ≠ some l) ∧
    applyTrace env σ (setupHook env app).trace l = σ l := by
  unfold setupHook
  cases hget : app.get_webview_window "main" with
  | none => simp [applyTrace]
  | some w =>
      have hw : w.label = "main" := label_of_found app "main" w hget
      have hne : (l == w.label) = false := by
        simp [hw]
        exact h
      constructor
      · intro e he
        simp at he
        rcases he with rfl | rfl <;>
          simp [Effect.target, hw] <;>
          exact fun hc => h hc.symm
      · simp [applyTrace, applyEffect, hne]

/-- Witness for C9 at the concrete state whose only window is "main",
observed at the label "other". -/
theorem setup_touches_only_main_witness :
    ("other" : String) ≠ "main" ∧
    ((∀ e ∈ (setupHook envAll appMain).trace, e.target ≠ some "other") ∧
     applyTrace envAll (fun _ => { visible := false, focused := false })
       (setupHook envAll appMain).trace "other" =
       (fun _ => ({ visible := false, focused := false } : WindowState)) "other") :=
  ⟨by decide, setup_touches_only_main envAll appMain "other"
    (fun _ => { visible := false, focused := false }) (by decide)⟩

end Azr
